import Mathlib

/-!
Shallow embedding of the WhatsApp-secretary ingestion and analysis pipeline
(`app/schemas/webhook.py`, `app/services/firestore.py`, `app/agents/router_.py`,
`app/agents/agent.py`, `daily_report.py`).

Modelling conventions:
- Server timestamps (`firestore.SERVER_TIMESTAMP`, Python `datetime`) are
  natural numbers; the `strftime` renderings used when formatting history
  lines are modelled by `toString` on that number (the claims under scrutiny
  never depend on the concrete date syntax, only on which messages appear,
  in which order, and in which "[date] sender: text" shape).
- JSON string fields of a raw webhook payload distinguish `absent` (key not
  in the dict), `null` and a string value, because pydantic treats the three
  differently for a required field with a `mode='before'` validator.
- External effects (attachment download, spreadsheet append, store errors)
  are driven by explicit boolean oracles, one per effect, so that both the
  success and the failure branch of the Python `try`/`except` blocks are
  reachable states of the model.
-/

/-- A JSON-ish string field of the raw payload: the key may be absent,
explicitly `null`, or carry a string. -/
inductive JStr where
  | absent
  | null
  | str (s : String)
deriving DecidableEq

/-- Python truthiness of `data.get(key)` for a string-valued key: `None`
(absent or null) and the empty string are falsy; a non-empty string is the
truthy value itself. -/
def JStr.truthy : JStr → Option String
  | .str s => if s = "" then none else some s
  | _ => none

/-- Python truthiness of an `Optional[str]` value (`None` and `""` falsy). -/
def optTruthy : Option String → Option String
  | some s => if s = "" then none else some s
  | none => none

/-- Rendering of an `Optional[str]` inside a Python f-string: `None` prints
as the four-letter string. -/
def pyStr : Option String → String
  | some s => s
  | none => "None"

/-- Model of `SenderInfo` from `app/schemas/webhook.py` (the `attendee_specifics`
phone block is ignored by every code path the claims touch). -/
structure SenderInfo where
  attendee_id : Option String := none
  attendee_name : Option String := some "Inconnu"
deriving DecidableEq

/-- Model of `AttendeeItem` from `app/schemas/webhook.py`. -/
structure AttendeeItem where
  attendee_id : Option String := none
  attendee_name : Option String := none
deriving DecidableEq

/-- Model of `Attachment` from `app/schemas/webhook.py`. -/
structure Attachment where
  id : Option String := none
  type_ : String := "unknown"
  url : Option String := none
  filename : Option String := none
deriving DecidableEq

/-- The canonical normalized event, `UnipileMessageEvent` from
`app/schemas/webhook.py` (fields after successful pydantic validation). -/
structure UnipileMessageEvent where
  event : String
  account_id : String
  message_id : String
  chat_id : String
  timestamp : String
  text : String := ""
  sender : SenderInfo := {}
  is_sender : Bool := false
  chat_name : Option String := none
  attendees_data : List AttendeeItem := []
  attachments : List Attachment := []
deriving DecidableEq

/-- Helper property `attendees_ids` of `UnipileMessageEvent`. -/
def UnipileMessageEvent.attendees_ids (e : UnipileMessageEvent) : List String :=
  e.attendees_data.filterMap (·.attendee_id)

/-- A raw webhook payload restricted to the keys `UnipileMessageEvent`
reads; unknown extra keys are ignored by the model (`extra = "ignore"`). -/
structure RawPayload where
  event : Option String := none
  account_id : Option String := none
  id : Option String := none
  message_id : Option String := none
  chat_id : Option String := none
  timestamp : JStr := .absent
  text : JStr := .absent
  message : JStr := .absent
  body : JStr := .absent
  sender : SenderInfo := {}
  is_sender : Bool := false
  chat_name : Option String := none
  attendees : List AttendeeItem := []
  attachments : List Attachment := []
deriving DecidableEq

/-- The content-resolution chain `data.get('text') or data.get('message')
or data.get('body')` of `unify_text_field`. -/
def resolveContent (t m b : JStr) : Option String :=
  t.truthy <|> m.truthy <|> b.truthy

/-- The `mode='before'` model validator `unify_text_field`: when the chain
produces a truthy content value it is written into the `text` key, otherwise
the payload is left untouched. -/
def unify_text_field (r : RawPayload) : RawPayload :=
  match resolveContent r.text r.message r.body with
  | some c => { r with text := .str c }
  | none => r

/-- Validation of the `text : str = ""` field: absent key takes the default,
a string passes through, an explicit `null` is rejected by pydantic. -/
def validateTextField : JStr → Except String String
  | .absent => .ok ""
  | .null => .error "text: Input should be a valid string"
  | .str s => .ok s

/-- The final `text` slot after `unify_text_field` ran over the three
content keys. -/
def resolvedTextSlot (t m b : JStr) : JStr :=
  match resolveContent t m b with
  | some c => .str c
  | none => t

/-- The value the normalized `text` field receives for given raw content
keys (composition of `unify_text_field` and the field validation). -/
def resolvedText (t m b : JStr) : Except String String :=
  validateTextField (resolvedTextSlot t m b)

/-- A required pydantic `str` field: absent fails with `Field required`. -/
def requireField (name : String) : Option String → Except String String
  | some s => .ok s
  | none => .error (name ++ ": Field required")

/-- The `mode='before'` field validator `normalize_timestamp`, composed with
pydantic's required-field rule: the validator only runs when the key is
present, so an absent `timestamp` fails validation; a present falsy value
(`null` or `""`) is replaced by the current server time `nowIso`. -/
def normalize_timestamp (nowIso : String) : JStr → Except String String
  | .absent => .error "timestamp: Field required"
  | .null => .ok nowIso
  | .str s => .ok (if s = "" then nowIso else s)

/-- Pydantic validation of `UnipileMessageEvent` over a raw payload:
the before-model validator runs first, then each field is resolved
(`message_id` accepts the alias `id` or, with `populate_by_name`, its own
name). -/
def model_validate (nowIso : String) (r0 : RawPayload) :
    Except String UnipileMessageEvent :=
  let r := unify_text_field r0
  match requireField "event" r.event with
  | .error e => .error e
  | .ok ev =>
  match requireField "account_id" r.account_id with
  | .error e => .error e
  | .ok acc =>
  match requireField "id" (r.id <|> r.message_id) with
  | .error e => .error e
  | .ok mid =>
  match requireField "chat_id" r.chat_id with
  | .error e => .error e
  | .ok cid =>
  match normalize_timestamp nowIso r.timestamp with
  | .error e => .error e
  | .ok ts =>
  match validateTextField r.text with
  | .error e => .error e
  | .ok tx =>
    .ok { event := ev, account_id := acc, message_id := mid, chat_id := cid,
          timestamp := ts, text := tx, sender := r.sender,
          is_sender := r.is_sender, chat_name := r.chat_name,
          attendees_data := r.attendees, attachments := r.attachments }

/-! Identity router (`app/agents/router_.py`). -/

/-- The five sender categories the router distinguishes. -/
inductive Category where
  | IGNORED
  | ADMIN
  | EMPLOYEE
  | PARTNER
  | EXTERNAL
deriving DecidableEq

/-- Static admin directory (`self.ADMINS`). -/
def ADMINS : List (String × String) :=
  [("33768389721", "FOUNDER"), ("15166422399", "COFOUNDER")]

/-- Static employee directory (`self.EMPLOYEES`). -/
def EMPLOYEES : List (String × String) :=
  [("16463922789", "Jin"), ("13478245247", "Muna Brian"),
   ("13476955236", "Josiah"), ("13472184391", "Seb"),
   ("19292267037", "Jamyang"), ("19178346848", "Jovie"),
   ("19292823114", "Haznallah"), ("16468944629", "Brayant")]

/-- Static partner directory (`self.PARTNERS`). -/
def PARTNERS : List (String × String) :=
  [("17737708956", "GOODREC_OFFICIAL"), ("14125671447", "GOODREC_HOSTS")]

/-- Static ignored set (`self.IGNORED_NUMBERS`). -/
def IGNORED_NUMBERS : List String :=
  ["33617785411", "33677798793", "21652699220", "21620345271", "33651682434"]

/-- Sender classification as performed by `route_and_reply` (the ignored
check, line 55) followed by the membership chain of `_get_system_prompt`
(lines 82, 96, 108, else-branch). -/
def classify (sender_id : String) : Category :=
  if sender_id ∈ IGNORED_NUMBERS then .IGNORED
  else if (ADMINS.lookup sender_id).isSome then .ADMIN
  else if (EMPLOYEES.lookup sender_id).isSome then .EMPLOYEE
  else if (PARTNERS.lookup sender_id).isSome then .PARTNER
  else .EXTERNAL

/-! Finance extraction (`app/agents/agent.py`, lines 39-52). -/

/-- JSON values, as produced by `json.loads`. -/
inductive Json where
  | null
  | bool (b : Bool)
  | num (n : Int)
  | str (s : String)
  | arr (elems : List Json)
  | obj (fields : List (String × Json))

/-- Whether a JSON value is a list. -/
def Json.isList : Json → Bool
  | .arr _ => true
  | _ => false

/-- Model of `FinanceAnalyst.extract_transactions`: the argument models the outcome
of `json.loads` on the cleaned AI response (the parser is a library call at
the model boundary): a parse failure (`JSONDecodeError`) yields the empty
list, any successfully parsed value is returned unchanged. -/
def extract_transactions (loads : Option Json) : Json :=
  match loads with
  | some v => v
  | none => Json.arr []

/-! Conversation store (`app/services/firestore.py`). The document store is
modelled as keyed association lists: conversation documents keyed by
`chat_id`, message documents keyed by `(chat_id, message_id)` (a message
subcollection can in principle outlive its parent document, as in
Firestore). -/

/-- A stored message document (`msg_doc` of `save_message_event`: the dump
of the event minus its `event` field, plus the server-assigned
`stored_at`). -/
structure MsgDoc where
  account_id : String
  message_id : String
  chat_id : String
  timestamp : String
  text : String
  sender : SenderInfo
  is_sender : Bool
  chat_name : Option String
  attendees_data : List AttendeeItem
  attachments : List Attachment
  stored_at : Nat
deriving DecidableEq

/-- A conversation document. Every field is optional because documents are
created by merge writes that only touch some fields. -/
structure ChatDoc where
  last_message_preview : Option String := none
  last_activity : Option String := none
  updated_at : Option Nat := none
  is_group : Option Bool := none
  ai_processed : Option Bool := none
  needs_summary : Option Bool := none
  participants_ids : List String := []
  participants_names : List String := []
  chat_name : Option String := none
  last_processed_at : Option Nat := none
deriving DecidableEq

/-- A conversation document with no fields set. -/
def emptyChatDoc : ChatDoc := {}

/-- The document store state. -/
structure Store where
  chats : List (String × ChatDoc) := []
  msgs : List ((String × String) × MsgDoc) := []
deriving DecidableEq

/-- Keyed upsert on an association list: `document(k).set(v)` replaces the
document with key `k` or creates it. -/
def setA {κ β : Type} [DecidableEq κ] (k : κ) (v : β) :
    List (κ × β) → List (κ × β)
  | [] => [(k, v)]
  | (k', v') :: rest => if k' = k then (k, v) :: rest else (k', v') :: setA k v rest

/-- Keyed lookup on an association list (`document(k).get()`). -/
def lookupA {κ β : Type} [DecidableEq κ] (k : κ) : List (κ × β) → Option β
  | [] => none
  | (k₀, v) :: rest => if k₀ = k then some v else lookupA k rest

/-- Firestore `ArrayUnion`: append the elements not already present,
keeping existing order (set semantics on membership). -/
def arrayUnion (base adds : List String) : List String :=
  adds.foldl (fun acc a => if a ∈ acc then acc else acc ++ [a]) base

/-! Attachment processing (`process_attachments`, firestore.py lines
44-96). -/

/-- Unipile DSN configuration value (symbolic). -/
def UNIPILE_DSN : String := "https://unipile.example"

/-- Storage bucket public URL root (symbolic). -/
def STORAGE_ROOT : String := "https://storage.googleapis.com/bucket/"

/-- File extension resolution: last dot-separated component of the filename
when it contains a dot, `"bin"` otherwise. -/
def fileExt : Option String → String
  | some f => if (f.splitOn ".").length > 1 then (f.splitOn ".").getLastD "bin" else "bin"
  | none => "bin"

/-- One iteration of the attachment loop: resolve a download URL (direct
URL first, else the Unipile fetch URL built from the attachment id), and on
a successful download (`fetchOk`) replace the URL with the durable storage
URL built from `chats/{chat_id}/{message_id}/{att_id}.{ext}`; on any
failure the attachment keeps its original URL. -/
def processOneAttachment (fetchOk : Bool) (chat_id message_id : String)
    (att : Attachment) : Attachment :=
  let download_url :=
    match optTruthy att.url with
    | some u => some u
    | none =>
      match optTruthy att.id with
      | some i => some (UNIPILE_DSN ++ "/api/v1/messages/" ++ message_id ++ "/attachments/" ++ i)
      | none => none
  match download_url with
  | none => att
  | some _ =>
    if fetchOk then
      { att with url := some (STORAGE_ROOT ++ "chats/" ++ chat_id ++ "/" ++
          message_id ++ "/" ++ pyStr att.id ++ "." ++ fileExt att.filename) }
    else att

/-- Model of `process_attachments`: best-effort rewrite of every attachment URL;
never raises on a per-attachment failure. -/
def process_attachments (fetchOk : Bool) (ev : UnipileMessageEvent) :
    UnipileMessageEvent :=
  { ev with attachments :=
      ev.attachments.map (processOneAttachment fetchOk ev.chat_id ev.message_id) }

/-- The message document built at firestore.py lines 117-118. -/
def mkMsgDoc (ev : UnipileMessageEvent) (now : Nat) : MsgDoc :=
  { account_id := ev.account_id, message_id := ev.message_id,
    chat_id := ev.chat_id, timestamp := ev.timestamp, text := ev.text,
    sender := ev.sender, is_sender := ev.is_sender,
    chat_name := ev.chat_name, attendees_data := ev.attendees_data,
    attachments := ev.attachments, stored_at := now }

/-- The `chat_update` dict of `save_message_event` (lines 120-148), before
it is merged into the conversation document. -/
structure ChatUpdate where
  last_message_preview : String
  last_activity : String
  updated_at : Nat
  is_group : Bool
  add_participant_id : Option String
  add_participant_name : Option String
  chat_name : Option String
deriving DecidableEq

/-- Builds the `chat_update` dict from the event: group heuristic
(participant count > 2 or `@g.us` in the chat id), sender resolution with
the `"Inconnu"` placeholder, preview with the attachment fallback and the
100-character truncation, and the three conditional keys. -/
def mkChatUpdate (ev : UnipileMessageEvent) (now : Nat) : ChatUpdate :=
  let attendees_list := ev.attendees_ids
  let is_group := attendees_list.length > 2 ||
    (ev.chat_id ≠ "" && (ev.chat_id.splitOn "@g.us").length > 1)
  let sender_name := (optTruthy ev.sender.attendee_name).getD "Inconnu"
  let preview0 :=
    if ev.text = "" then
      match ev.attachments with
      | a :: _ => "📎 Fichier: " ++ (optTruthy a.filename).getD "Media"
      | [] => ev.text
    else ev.text
  let preview_text := preview0.take 100
  { last_message_preview := sender_name ++ ": " ++ preview_text,
    last_activity := ev.timestamp,
    updated_at := now,
    is_group := is_group,
    add_participant_id := optTruthy ev.sender.attendee_id,
    add_participant_name := if sender_name ≠ "Inconnu" then some sender_name else none,
    chat_name := match ev.chat_name with
      | some n => if n = "" then none else some n
      | none => none }

/-- Merge-write of a `chat_update` into an existing (or empty) conversation
document: touched fields are overwritten, `participants_*` grow by
`ArrayUnion`, untouched fields (in particular `last_processed_at`) are
preserved. -/
def applyChatMerge (base : ChatDoc) (u : ChatUpdate) : ChatDoc :=
  { last_message_preview := some u.last_message_preview,
    last_activity := some u.last_activity,
    updated_at := some u.updated_at,
    is_group := some u.is_group,
    ai_processed := some false,
    needs_summary := some true,
    participants_ids := arrayUnion base.participants_ids u.add_participant_id.toList,
    participants_names := arrayUnion base.participants_names u.add_participant_name.toList,
    chat_name := match u.chat_name with
      | some n => some n
      | none => base.chat_name,
    last_processed_at := base.last_processed_at }

/-- A buffered write of the Firestore batch. -/
inductive BatchWrite where
  | setMsg (chat_id message_id : String) (doc : MsgDoc)
  | setChatMerge (chat_id : String) (u : ChatUpdate)

/-- Application of one buffered write to the store. -/
def applyWrite (s : Store) : BatchWrite → Store
  | .setMsg c m doc => { s with msgs := setA (c, m) doc s.msgs }
  | .setChatMerge c u =>
    let base := (lookupA c s.chats).getD emptyChatDoc
    { s with chats := setA c (applyChatMerge base u) s.chats }

/-- Model of `batch.commit()`: the buffered writes hit the store together, only
here. -/
def commitBatch (s : Store) (b : List BatchWrite) : Store :=
  b.foldl applyWrite s

/-- Model of `save_message_event` (firestore.py lines 100-160). `exc` models any
exception raised inside the `try` block before the batch commit completes
(attachment download setup, data dump, the commit call itself — the batch
primitive is all-or-nothing): in that case the function logs, returns
`False`, and the store is untouched. Otherwise the attachments are
processed best-effort and the two buffered writes are committed as one
batch, returning `True`. `now` is the server timestamp assigned to this
write. -/
def save_message_event (exc fetchOk : Bool) (now : Nat)
    (ev : UnipileMessageEvent) (s : Store) : Bool × Store :=
  if exc then (false, s)
  else
    let ev' := process_attachments fetchOk ev
    let batch := [BatchWrite.setMsg ev'.chat_id ev'.message_id (mkMsgDoc ev' now),
                  BatchWrite.setChatMerge ev'.chat_id (mkChatUpdate ev' now)]
    (true, commitBatch s batch)

/-- Model of `mark_chat_as_processed` (lines 194-197): a plain `update()` on the
conversation document; on a missing document the raised error is swallowed
(`except: pass`) and the store is unchanged. -/
def mark_chat_as_processed (now : Nat) (chat_id : String) (s : Store) : Store :=
  match lookupA chat_id s.chats with
  | none => s
  | some cd =>
    let cd' : ChatDoc :=
      { cd with needs_summary := some false, ai_processed := some true,
                last_processed_at := some now }
    { s with chats := setA chat_id cd' s.chats }

/-- Model of `get_unprocessed_chats` (lines 188-192): ids of the conversations whose
`needs_summary` field equals `true`; any store error yields `[]`. -/
def get_unprocessed_chats (readFail : Bool) (s : Store) : List String :=
  if readFail then []
  else (s.chats.filter (fun p => p.2.needs_summary = some true)).map (·.1)

/-- The message documents of one conversation. -/
def msgsOf (s : Store) (chat_id : String) : List MsgDoc :=
  (s.msgs.filter (fun kv => kv.1.1 = chat_id)).map (·.2)

/-- The `order_by("stored_at")` relation. -/
def storedLe (a b : MsgDoc) : Prop := a.stored_at ≤ b.stored_at

instance : DecidableRel storedLe := fun a b => Nat.decLe a.stored_at b.stored_at

instance : IsTotal MsgDoc storedLe := ⟨fun a b => Nat.le_total a.stored_at b.stored_at⟩

instance : IsTrans MsgDoc storedLe := ⟨fun _ _ _ => Nat.le_trans⟩

/-- One line of `get_new_messages_only`: `"[date] sender: text"`, with the
`"[Fichier Joint]"` fallback for an empty text and the stored sender name
read back from the message document. -/
def fmtNewLine (m : MsgDoc) : String :=
  "[" ++ toString m.stored_at ++ "] " ++ pyStr m.sender.attendee_name ++ ": " ++
    (if m.text = "" then "[Fichier Joint]" else m.text)

/-- Model of `get_new_messages_only` (lines 199-216): empty string when the
conversation document does not exist; otherwise the messages ordered by
`stored_at`, restricted to `stored_at > last_processed_at` when the
watermark is set, one formatted line per message. Any store error
(`readFail`) is caught and yields the empty string. -/
def get_new_messages_only (readFail : Bool) (chat_id : String) (s : Store) : String :=
  if readFail then ""
  else
    match lookupA chat_id s.chats with
    | none => ""
    | some cd =>
      let sorted := List.insertionSort storedLe (msgsOf s chat_id)
      let qual := match cd.last_processed_at with
        | some w => sorted.filter (fun m : MsgDoc => decide (w < m.stored_at))
        | none => sorted
      String.intercalate "\n" (qual.map fmtNewLine)

/-- One line of `get_weekly_context`, with the attachment-URL fallback for
an empty text. -/
def fmtWeeklyLine (m : MsgDoc) : String :=
  let text :=
    if m.text = "" then
      match m.attachments with
      | a :: _ => "[📎 PIÈCE JOINTE: " ++ pyStr a.url ++ "]"
      | [] => m.text
    else m.text
  "[" ++ toString m.stored_at ++ "] " ++ pyStr m.sender.attendee_name ++ ": " ++ text

/-- Model of `get_weekly_context` (lines 165-186): the messages with `stored_at`
at or after the seven-day cutoff, ordered by `stored_at`, one formatted
line per message; any store error is caught and yields the empty string. -/
def get_weekly_context (readFail : Bool) (cutoff : Nat) (chat_id : String)
    (s : Store) : String :=
  if readFail then ""
  else
    let docs := (List.insertionSort storedLe (msgsOf s chat_id)).filter
      (fun m : MsgDoc => decide (cutoff ≤ m.stored_at))
    String.intercalate "\n" (docs.map fmtWeeklyLine)

/-- Modelled from the spec: `get_messages_from_today` is imported by
`daily_report.py` from the firestore service but its definition is not
among the source files. Spec section 4.3 (`getWindowText`): it returns the
messages with `stored_at` inside the rolling window (here: at or after the
start of today), ignoring the watermark entirely, in non-decreasing
`stored_at` order, formatted as `"[date] sender: text"` lines, and the
empty string when no message qualifies. -/
def get_messages_from_today (startOfToday : Nat) (chat_id : String) (s : Store) : String :=
  let docs := (List.insertionSort storedLe (msgsOf s chat_id)).filter
    (fun m : MsgDoc => decide (startOfToday ≤ m.stored_at))
  String.intercalate "\n" (docs.map fmtNewLine)

/-- The write operations of the firestore service (the read functions do
not touch the store). -/
inductive StoreOp where
  | save (exc fetchOk : Bool) (now : Nat) (ev : UnipileMessageEvent)
  | mark (now : Nat) (chat_id : String)

/-- State transition of one service operation. -/
def applyStoreOp (s : Store) : StoreOp → Store
  | .save exc fok now ev => (save_message_event exc fok now ev s).2
  | .mark now c => mark_chat_as_processed now c s

/-- A run of service operations from a starting state. -/
def runOps (s : Store) (ops : List StoreOp) : Store :=
  ops.foldl applyStoreOp s

/-! Analysis dispatcher (`daily_report.py`). The spreadsheet is modelled as
an append-only list of rows; a cell is an `Option String` because
`tx.get(...)` may put Python `None` into a row. -/

/-- Chat id of the founders conversation (`VINCENT_CHAT_ID`). -/
def VINCENT_CHAT_ID : String := "BAKgkSJ2VqKSlDDhOy4Cww"

/-- Operator's own chat id (`MY_CHAT_ID`). -/
def MY_CHAT_ID : String := "33768389721"

/-- Chat id of the expenses group (`FINANCE_GROUP_ID`). -/
def FINANCE_GROUP_ID : String := "-zeA_LzlUnS3nCeRyIdS5Q"

/-- A transaction record as consumed by the finance loop of
`daily_report.py` (each field read with `tx.get`, hence optional). -/
structure Tx where
  date : Option String := none
  paye_par : Option String := none
  categorie : Option String := none
  description : Option String := none
  montant : Option String := none
  devise : Option String := none
deriving DecidableEq

/-- The spreadsheet row built for one transaction (lines 136-143). -/
def txRow (t : Tx) : List (Option String) :=
  [t.date, t.paye_par, t.categorie, t.description, t.montant, t.devise]

/-- Combined state of the document store and the output spreadsheet. -/
structure World where
  store : Store := {}
  sheet : List (List (Option String)) := []
deriving DecidableEq

/-- Model of `GoogleSheetsService.append_row`: appends one row and reports success;
on failure (service not ready, or retries exhausted) nothing is written
and `false` is returned. -/
def append_row (ok : Bool) (values : List (Option String)) (w : World) :
    Bool × World :=
  if ok then (true, { w with sheet := w.sheet ++ [values] }) else (false, w)

/-- One iteration of the sales loop of `daily_report.main` (lines 62-93):
skip the two excluded chats; an empty weekly history marks the chat as
processed immediately; otherwise the analysis row is appended and the chat
is marked as processed only when the append reported success. `appendOk`
and `readFail` are the per-chat effect oracles, `analyze` the AI output. -/
def salesStep (appendOk readFail : String → Bool)
    (analyze : String → String → String) (today : String)
    (cutoff now : Nat) (w : World) (chat_id : String) : World :=
  if chat_id = VINCENT_CHAT_ID || chat_id = MY_CHAT_ID then w
  else
    let history := get_weekly_context (readFail chat_id) cutoff chat_id w.store
    if history = "" then
      { w with store := mark_chat_as_processed now chat_id w.store }
    else
      let analysis := analyze chat_id history
      let r := append_row (appendOk chat_id) [some today, some chat_id, some analysis] w
      if r.1 then { r.2 with store := mark_chat_as_processed now chat_id r.2.store }
      else r.2

/-- The whole sales loop: the unprocessed-chat list is fetched once, then
each chat is handled by `salesStep`. -/
def salesPhase (listFail : Bool) (appendOk readFail : String → Bool)
    (analyze : String → String → String) (today : String)
    (cutoff now : Nat) (w : World) : World :=
  (get_unprocessed_chats listFail w.store).foldl
    (salesStep appendOk readFail analyze today cutoff now) w

/-- The strategy section of `daily_report.main` (lines 95-116): when the
founders chat has messages today, the report row is appended and the chat
is marked as processed unconditionally — the append result is not
checked. -/
def strategyPhase (appendOk : Bool) (analyze : String → String)
    (today : String) (startOfToday now : Nat) (w : World) : World :=
  let hist := get_messages_from_today startOfToday VINCENT_CHAT_ID w.store
  if hist = "" then w
  else
    let report := analyze hist
    let r := append_row appendOk [some today, some "Vincent & Moi", some report] w
    { r.2 with store := mark_chat_as_processed now VINCENT_CHAT_ID r.2.store }

/-- The finance section of `daily_report.main` (lines 118-150): when the
expenses group has unanalyzed messages, one row is appended per extracted
transaction (append results not checked) and the group is marked as
processed unconditionally; with no new messages nothing happens. `extract`
models `FinanceAnalyst.extract_transactions` on the history text. -/
def financePhase (appendOk readFail : Bool) (extract : String → List Tx)
    (now : Nat) (w : World) : World :=
  let hist := get_new_messages_only readFail FINANCE_GROUP_ID w.store
  if hist = "" then w
  else
    let txs := extract hist
    let w' := txs.foldl (fun acc t => (append_row appendOk (txRow t) acc).2) w
    { w' with store := mark_chat_as_processed now FINANCE_GROUP_ID w'.store }

/-- A raw payload with every required identity field present but no
timestamp key at all. -/
def rawNoTimestamp : RawPayload :=
  { event := some "message_received", account_id := some "acc1",
    id := some "m1", chat_id := some "c1", text := .str "hello" }

/-- A raw payload identical to `rawNoTimestamp` but with an empty-string
timestamp value. -/
def rawEmptyTimestamp : RawPayload :=
  { event := some "message_received", account_id := some "acc1",
    id := some "m1", chat_id := some "c1", timestamp := .str "",
    text := .str "hello" }

/-- Number of stored message documents (rows) whose key is
`(chat_id, message_id)`. -/
def msgDocCount (s : Store) (c m : String) : Nat :=
  (s.msgs.filter (fun kv => decide (kv.1 = (c, m)))).length

/-- The conversation fields claim C1 ranges over: participant sets, preview
fields, group flag and chat name. -/
def convView (s : Store) (c : String) :
    Option (List String × List String × Option String × Option String ×
      Option Bool × Option String) :=
  (lookupA c s.chats).map (fun cd =>
    (cd.participants_ids, cd.participants_names, cd.last_message_preview,
     cd.last_activity, cd.is_group, cd.chat_name))

/-- A concrete normalized event used by the closed witnesses. -/
def evC1 : UnipileMessageEvent :=
  { event := "message_received", account_id := "acc1", message_id := "m1",
    chat_id := "c1", timestamp := "2025-01-01T00:00:00", text := "bonjour",
    sender := { attendee_id := some "p1", attendee_name := some "Alice" } }

/-- Store after ingesting `evC1` once into the empty store. -/
def storeC1a : Store := (save_message_event false false 1 evC1 {}).2

/-- Store after ingesting `evC1` a second time. -/
def storeC1b : Store := (save_message_event false false 2 evC1 storeC1a).2

/-- The flag view of a conversation: `none` when the conversation document
does not exist, otherwise its `needs_summary` field. -/
def chatFlag (s : Store) (c : String) : Option (Option Bool) :=
  (lookupA c s.chats).map (·.needs_summary)

/-- A store holding one queued conversation, used by closed witnesses. -/
def storeFlag : Store := { chats := [("c1", { needs_summary := some true })] }

/-- An already-analyzed message below the watermark. -/
def msgC4a : MsgDoc :=
  { account_id := "acc1", message_id := "m1", chat_id := "c4",
    timestamp := "t1", text := "ancien",
    sender := { attendee_id := some "p1", attendee_name := some "Alice" },
    is_sender := false, chat_name := none, attendees_data := [],
    attachments := [], stored_at := 5 }

/-- A new message above the watermark. -/
def msgC4b : MsgDoc :=
  { account_id := "acc1", message_id := "m2", chat_id := "c4",
    timestamp := "t2", text := "nouveau",
    sender := { attendee_id := some "p1", attendee_name := some "Alice" },
    is_sender := false, chat_name := none, attendees_data := [],
    attachments := [], stored_at := 15 }

/-- A conversation document with a watermark at server time ten. -/
def chatC4 : ChatDoc := { needs_summary := some true, last_processed_at := some 10 }

/-- A store with one conversation and two messages around the watermark. -/
def storeC4 : Store :=
  { chats := [("c4", chatC4)],
    msgs := [(("c4", "m1"), msgC4a), (("c4", "m2"), msgC4b)] }

/-- A message in the expenses group, not yet past the watermark. -/
def msgFin : MsgDoc :=
  { account_id := "acc1", message_id := "m1", chat_id := FINANCE_GROUP_ID,
    timestamp := "t", text := "120 euros pub facebook",
    sender := { attendee_id := some "p1", attendee_name := some "Alice" },
    is_sender := false, chat_name := none, attendees_data := [],
    attachments := [], stored_at := 5 }

/-- A store where the expenses group is queued with one unanalyzed
message. -/
def storeFin : Store :=
  { chats := [(FINANCE_GROUP_ID, { needs_summary := some true })],
    msgs := [((FINANCE_GROUP_ID, "m1"), msgFin)] }

/-- World with the queued finance conversation and an empty spreadsheet. -/
def worldFin : World := { store := storeFin }

/-- One extracted transaction record. -/
def txFin : Tx := { date := some "12/10/2025", montant := some "120" }

/-! Helper lemmas about the keyed store primitives. -/

theorem lookupA_setA {κ β : Type} [DecidableEq κ] (k k' : κ) (v : β) :
    ∀ l : List (κ × β),
      lookupA k' (setA k v l) = if k = k' then some v else lookupA k' l := by
  intro l
  induction l with
  | nil => simp [setA, lookupA]
  | cons hd tl ih =>
    obtain ⟨k₀, v₀⟩ := hd
    simp only [setA]
    by_cases h0 : k₀ = k
    · subst h0
      simp only [if_pos rfl, lookupA]
      by_cases h : k₀ = k' <;> simp [h]
    · simp only [if_neg h0, lookupA]
      by_cases h : k₀ = k'
      · have hkk : ¬ (k = k') := fun he => h0 (h.trans he.symm)
        simp [h, hkk]
      · simp [h, ih]

theorem keys_setA {κ β : Type} [DecidableEq κ] (k : κ) (v : β) :
    ∀ l : List (κ × β),
      (setA k v l).map Prod.fst =
        if k ∈ l.map Prod.fst then l.map Prod.fst else l.map Prod.fst ++ [k] := by
  intro l
  induction l with
  | nil => simp [setA]
  | cons hd tl ih =>
    obtain ⟨k₀, v₀⟩ := hd
    by_cases h0 : k₀ = k
    · subst h0
      simp [setA]
    · have h0' : ¬ (k = k₀) := fun he => h0 he.symm
      by_cases hm : k ∈ tl.map Prod.fst
      · simp [setA, h0, ih, hm, h0']
      · simp [setA, h0, ih, hm, h0']

theorem nodup_keys_setA {κ β : Type} [DecidableEq κ] (k : κ) (v : β)
    (l : List (κ × β)) (h : (l.map Prod.fst).Nodup) :
    ((setA k v l).map Prod.fst).Nodup := by
  rw [keys_setA]
  by_cases hm : k ∈ l.map Prod.fst
  · simpa [hm] using h
  · simp only [hm, if_false]
    exact List.Nodup.append h (List.nodup_singleton k)
      (fun a ha hb => hm (by
        simp only [List.mem_singleton] at hb
        exact hb ▸ ha))

theorem count_keys_setA {κ β : Type} [DecidableEq κ] (k : κ) (v : β)
    (l : List (κ × β)) (h : (l.map Prod.fst).Nodup) :
    ((setA k v l).map Prod.fst).count k = 1 := by
  rw [keys_setA]
  by_cases hm : k ∈ l.map Prod.fst
  · simp only [hm, if_true]
    exact List.count_eq_one_of_mem h hm
  · simp only [hm, if_false, List.count_append]
    rw [List.count_eq_zero.mpr hm]
    simp

theorem arrayUnion_nil (base : List String) : arrayUnion base [] = base := rfl

theorem arrayUnion_single (base : List String) (a : String) :
    arrayUnion base [a] = if a ∈ base then base else base ++ [a] := by
  simp [arrayUnion, List.foldl]

theorem arrayUnion_single_idem (base : List String) (o : Option String) :
    arrayUnion (arrayUnion base o.toList) o.toList = arrayUnion base o.toList := by
  cases o with
  | none => rfl
  | some a =>
    simp only [Option.toList, arrayUnion_single]
    by_cases h : a ∈ base
    · simp [h]
    · have h2 : a ∈ base ++ [a] := by simp
      simp [h, h2]

/-- Structural description of `unify_text_field`: only the `text` slot
changes, to the resolved content slot. -/
theorem unify_text_field_eq (r : RawPayload) :
    unify_text_field r = { r with text := resolvedTextSlot r.text r.message r.body } := by
  unfold unify_text_field resolvedTextSlot
  cases h : resolveContent r.text r.message r.body <;> simp

/-- C5: sender classification is a total, deterministic function from any
sender identifier string to exactly one of the five categories; the ignored
set is checked first and overrides every other classification including
admin; `EXTERNAL` is returned whenever the identifier is in none of the
static directories, in particular for the empty string. -/
theorem C5_classify_total (s : String) :
    (classify s = .IGNORED ∨ classify s = .ADMIN ∨ classify s = .EMPLOYEE ∨
      classify s = .PARTNER ∨ classify s = .EXTERNAL) ∧
    (s ∈ IGNORED_NUMBERS → classify s = .IGNORED) ∧
    ((s ∉ IGNORED_NUMBERS ∧ ADMINS.lookup s = none ∧ EMPLOYEES.lookup s = none ∧
      PARTNERS.lookup s = none) → classify s = .EXTERNAL) ∧
    classify "" = .EXTERNAL := by
  refine ⟨?_, ?_, ?_, by decide⟩
  · unfold classify
    split_ifs <;> simp
  · intro h
    simp [classify, h]
  · rintro ⟨h1, h2, h3, h4⟩
    simp [classify, h1, h2, h3, h4]

/-- C5 witness: an ignored number also present in no other directory is
classified `IGNORED`, and an unknown identifier is classified
`EXTERNAL`. -/
theorem C5_classify_total_witness :
    classify "33617785411" = .IGNORED ∧ classify "99900011122" = .EXTERNAL :=
  ⟨(C5_classify_total "33617785411").2.1 (by decide),
   (C5_classify_total "99900011122").2.2.1 ⟨by decide, by decide, by decide, by decide⟩⟩

/-- C6 counterexample: the finance extraction is not always a list — a
parseable scalar AI output (here the JSON number 5, i.e. `json.loads`
succeeding on the text `"5"`) is returned unchanged, a single scalar
rather than a list of transaction records. -/
theorem C6_counterexample :
    extract_transactions (some (Json.num 5)) = Json.num 5 ∧
    (extract_transactions (some (Json.num 5))).isList = false :=
  ⟨rfl, rfl⟩

/-- C6 (amended): the finance strategy's output is exactly the parsed JSON
value — the empty list when the AI output is unparseable (no exception),
the same list when the AI returns a JSON array, but a parseable scalar is
passed through unchanged; and when the extracted transaction list is empty
for a non-empty batch, the dispatcher advances the watermark without
writing any spreadsheet row. -/
theorem C6_finance_output (appendOk readFail : Bool)
    (extract : String → List Tx) (now : Nat) (w : World)
    (hne : get_new_messages_only readFail FINANCE_GROUP_ID w.store ≠ "")
    (hemp : extract (get_new_messages_only readFail FINANCE_GROUP_ID w.store) = []) :
    (extract_transactions none = Json.arr []) ∧
    (∀ l : List Json, extract_transactions (some (Json.arr l)) = Json.arr l) ∧
    (financePhase appendOk readFail extract now w).sheet = w.sheet ∧
    (financePhase appendOk readFail extract now w).store =
      mark_chat_as_processed now FINANCE_GROUP_ID w.store := by
  refine ⟨rfl, fun l => rfl, ?_, ?_⟩ <;>
    simp [financePhase, hne, hemp]

/-- C7: message text is resolved by trying `text`, `message`, `body` in
that fixed priority order, first non-empty wins, defaulting to the empty
string; hence any two payloads that differ only in which alternate field
carries the same non-empty content normalize to the same `text`, and the
normalized `text` of any successfully validated payload is this resolved
value. -/
theorem C7_text_resolution :
    (∀ (m b : JStr) (c : String), c ≠ "" → resolvedText (.str c) m b = .ok c) ∧
    (∀ (t b : JStr) (c : String), c ≠ "" → t.truthy = none →
      resolvedText t (.str c) b = .ok c) ∧
    (∀ (t m : JStr) (c : String), c ≠ "" → t.truthy = none → m.truthy = none →
      resolvedText t m (.str c) = .ok c) ∧
    (∀ t m b : JStr, (t = .absent ∨ t = .str "") → m.truthy = none →
      b.truthy = none → resolvedText t m b = .ok "") ∧
    (∀ (nowIso : String) (r : RawPayload) (e : UnipileMessageEvent),
      model_validate nowIso r = .ok e →
      resolvedText r.text r.message r.body = .ok e.text) := by
  refine ⟨?_, ?_, ?_, ?_, ?_⟩
  · intro m b c hc
    simp [resolvedText, resolvedTextSlot, resolveContent, JStr.truthy, hc,
      validateTextField]
  · intro t b c hc ht
    have hcs : (JStr.str c).truthy = some c := by simp [JStr.truthy, hc]
    simp [resolvedText, resolvedTextSlot, resolveContent, hcs, ht, validateTextField]
  · intro t m c hc ht hm
    have hcs : (JStr.str c).truthy = some c := by simp [JStr.truthy, hc]
    simp [resolvedText, resolvedTextSlot, resolveContent, hcs, ht, hm, validateTextField]
  · intro t m b ht hm hb
    have ht' : t.truthy = none := by
      rcases ht with h | h <;> simp [h, JStr.truthy]
    rcases ht with h | h <;> subst h <;>
      simp [resolvedText, resolvedTextSlot, resolveContent, ht', hm, hb,
        validateTextField]
  · intro nowIso r e h
    unfold model_validate at h
    rw [unify_text_field_eq r] at h
    simp only at h
    split at h
    · cases h
    split at h
    · cases h
    split at h
    · cases h
    split at h
    · cases h
    split at h
    · cases h
    split at h
    · cases h
    next tx heq =>
      rw [Except.ok.injEq] at h
      subst h
      simpa [resolvedText] using heq

/-- C7 witness: the same non-empty content carried by any of the three
alternate field names resolves to the same text, and all-absent content
defaults to the empty string. -/
theorem C7_text_resolution_witness :
    resolvedText (.str "hola") .absent .absent = .ok "hola" ∧
    resolvedText .absent (.str "hola") .absent = .ok "hola" ∧
    resolvedText .absent .absent (.str "hola") = .ok "hola" ∧
    resolvedText .absent .absent .absent = .ok "" :=
  ⟨C7_text_resolution.1 .absent .absent "hola" (by decide),
   C7_text_resolution.2.1 .absent .absent "hola" (by decide) rfl,
   C7_text_resolution.2.2.1 .absent .absent "hola" (by decide) rfl rfl,
   C7_text_resolution.2.2.2.1 .absent .absent .absent (Or.inl rfl) rfl rfl⟩

/-- C8 counterexample: normalization does not succeed for a payload whose
timestamp field is absent — the required-field check fires before the
`normalize_timestamp` validator can substitute the current time, so the
claim's "absent" case fails on the code (only present-but-falsy values
default to now). -/
theorem C8_counterexample :
    model_validate "2025-10-12T00:00:00" rawNoTimestamp =
      .error "timestamp: Field required" := rfl

/-- C8 (amended): for every raw payload whose required identity fields are
present, whose text slot validates, and whose timestamp field is present
but null or empty, normalization succeeds and substitutes the current
server time for the timestamp; an absent timestamp key instead fails
validation. -/
theorem C8_timestamp_default (nowIso : String) (r : RawPayload)
    (e0 a0 m0 c0 tx : String)
    (h1 : r.event = some e0) (h2 : r.account_id = some a0)
    (h3 : (r.id <|> r.message_id) = some m0) (h4 : r.chat_id = some c0)
    (h5 : r.timestamp = .null ∨ r.timestamp = .str "")
    (h6 : resolvedText r.text r.message r.body = .ok tx) :
    model_validate nowIso r =
      .ok { event := e0, account_id := a0, message_id := m0, chat_id := c0,
            timestamp := nowIso, text := tx, sender := r.sender,
            is_sender := r.is_sender, chat_name := r.chat_name,
            attendees_data := r.attendees, attachments := r.attachments } := by
  unfold model_validate
  rw [unify_text_field_eq r]
  unfold resolvedText at h6
  rcases h5 with h5 | h5 <;>
    simp [h1, h2, h3, h4, h5, h6, requireField, normalize_timestamp]

/-- C8 witness: the empty-timestamp payload validates with the current
server time substituted. -/
theorem C8_timestamp_default_witness :
    model_validate "2025-10-12T00:00:00" rawEmptyTimestamp =
      .ok { event := "message_received", account_id := "acc1",
            message_id := "m1", chat_id := "c1",
            timestamp := "2025-10-12T00:00:00", text := "hello" } :=
  C8_timestamp_default "2025-10-12T00:00:00" rawEmptyTimestamp
    "message_received" "acc1" "m1" "c1" "hello" rfl rfl rfl rfl (Or.inr rfl) rfl

/-- Net effect of a successful `save_message_event` on the store: the
message document is upserted under `(chat_id, message_id)` and the
merge-update is applied to the conversation document, both in one batch. -/
theorem save_success_state (fok : Bool) (now : Nat)
    (ev : UnipileMessageEvent) (s : Store) :
    (save_message_event false fok now ev s).2 =
      { chats := setA ev.chat_id
          (applyChatMerge ((lookupA ev.chat_id s.chats).getD emptyChatDoc)
            (mkChatUpdate (process_attachments fok ev) now)) s.chats,
        msgs := setA (ev.chat_id, ev.message_id)
          (mkMsgDoc (process_attachments fok ev) now) s.msgs } := rfl

theorem length_filter_setA {κ β : Type} [DecidableEq κ] (k : κ) (v : β) :
    ∀ l : List (κ × β), (l.map Prod.fst).Nodup →
      ((setA k v l).filter (fun kv => decide (kv.1 = k))).length = 1 := by
  intro l
  induction l with
  | nil => intro _; simp [setA]
  | cons hd tl ih =>
    intro h
    obtain ⟨k₀, v₀⟩ := hd
    simp only [List.map_cons, List.nodup_cons] at h
    by_cases h0 : k₀ = k
    · subst h0
      have hnil : tl.filter (fun kv => decide (kv.1 = k₀)) = [] := by
        rw [List.filter_eq_nil_iff]
        intro kv hkv
        simp only [decide_eq_true_eq]
        intro he
        exact h.1 (he ▸ List.mem_map_of_mem Prod.fst hkv)
      simp [setA, hnil]
    · simp only [setA, h0, if_false]
      rw [List.filter_cons_of_neg (by simpa using fun he => h0 he)]
      exact ih h.2

/-- C1: ingesting the same raw payload twice (same event, possibly at
different server times) leaves exactly one stored message document for its
`(chat_id, message_id)` pair, and the participant sets and preview fields
of the conversation are exactly those after the first ingestion. -/
theorem C1_ingest_idempotent (ev : UnipileMessageEvent) (fok : Bool)
    (t1 t2 : Nat) (s : Store) (hkeys : (s.msgs.map Prod.fst).Nodup) :
    msgDocCount (save_message_event false fok t2 ev
        (save_message_event false fok t1 ev s).2).2 ev.chat_id ev.message_id = 1 ∧
    convView (save_message_event false fok t2 ev
        (save_message_event false fok t1 ev s).2).2 ev.chat_id =
      convView (save_message_event false fok t1 ev s).2 ev.chat_id := by
  rw [save_success_state fok t1 ev s,
      save_success_state fok t2 ev _]
  dsimp only [msgDocCount]
  constructor
  · exact length_filter_setA _ _ _ (nodup_keys_setA _ _ _ hkeys)
  · simp only [convView, lookupA_setA, if_pos, Option.getD_some, Option.map_some']
    have hid : (mkChatUpdate (process_attachments fok ev) t2).add_participant_id =
        (mkChatUpdate (process_attachments fok ev) t1).add_participant_id := rfl
    have hnm : (mkChatUpdate (process_attachments fok ev) t2).add_participant_name =
        (mkChatUpdate (process_attachments fok ev) t1).add_participant_name := rfl
    have hpv : (mkChatUpdate (process_attachments fok ev) t2).last_message_preview =
        (mkChatUpdate (process_attachments fok ev) t1).last_message_preview := rfl
    have hac : (mkChatUpdate (process_attachments fok ev) t2).last_activity =
        (mkChatUpdate (process_attachments fok ev) t1).last_activity := rfl
    have hgr : (mkChatUpdate (process_attachments fok ev) t2).is_group =
        (mkChatUpdate (process_attachments fok ev) t1).is_group := rfl
    have hcn : (mkChatUpdate (process_attachments fok ev) t2).chat_name =
        (mkChatUpdate (process_attachments fok ev) t1).chat_name := rfl
    simp only [applyChatMerge, hid, hnm, hpv, hac, hgr, hcn]
    cases hcc : (mkChatUpdate (process_attachments fok ev) t1).chat_name <;>
      simp [hcc] <;>
      exact ⟨arrayUnion_single_idem _ _, arrayUnion_single_idem _ _⟩

/-- C1 witness: two ingestions of the same payload leave one message row
and the same conversation view. -/
theorem C1_ingest_idempotent_witness :
    msgDocCount storeC1b "c1" "m1" = 1 ∧
    convView storeC1b "c1" = convView storeC1a "c1" :=
  C1_ingest_idempotent evC1 false 1 2 {} (by decide)

/-- C2: the message insert and the conversation update are applied as one
all-or-nothing batch — an exception before the commit leaves the store
untouched and returns failure, success commits both writes — and in every
store reachable from the empty store by service write operations, every
stored message's conversation document exists (the message is never saved
without the conversation metadata update). -/
theorem C2_atomic_batch (exc fok : Bool) (now : Nat)
    (ev : UnipileMessageEvent) (s : Store) :
    ((save_message_event exc fok now ev s).1 = false ∧
      (save_message_event exc fok now ev s).2 = s ∨
     (save_message_event exc fok now ev s).1 = true ∧
      lookupA (ev.chat_id, ev.message_id) (save_message_event exc fok now ev s).2.msgs =
        some (mkMsgDoc (process_attachments fok ev) now) ∧
      lookupA ev.chat_id (save_message_event exc fok now ev s).2.chats =
        some (applyChatMerge ((lookupA ev.chat_id s.chats).getD emptyChatDoc)
          (mkChatUpdate (process_attachments fok ev) now))) ∧
    (∀ (ops : List StoreOp) (c m : String),
      (lookupA (c, m) (runOps {} ops).msgs).isSome →
      (lookupA c (runOps {} ops).chats).isSome) := by
  constructor
  · cases exc with
    | true => exact Or.inl ⟨rfl, rfl⟩
    | false =>
      refine Or.inr ⟨rfl, ?_, ?_⟩ <;>
      · rw [save_success_state]
        dsimp only
        rw [lookupA_setA]
        simp
  · have hstep : ∀ (op : StoreOp) (s' : Store),
        (∀ c m, (lookupA (c, m) s'.msgs).isSome → (lookupA c s'.chats).isSome) →
        ∀ c m, (lookupA (c, m) (applyStoreOp s' op).msgs).isSome →
          (lookupA c (applyStoreOp s' op).chats).isSome := by
      intro op s' hs c m hcm
      cases op with
      | save exc' fok' now' ev' =>
        cases exc' with
        | true => exact hs c m hcm
        | false =>
          rw [show applyStoreOp s' (StoreOp.save false fok' now' ev') =
              (save_message_event false fok' now' ev' s').2 from rfl,
            save_success_state] at hcm ⊢
          dsimp only at hcm ⊢
          rw [lookupA_setA] at hcm ⊢
          by_cases hc : ev'.chat_id = c
          · simp [hc]
          · simp only [if_neg hc]
            have hkey : ¬ ((ev'.chat_id, ev'.message_id) = (c, m)) := by
              intro he
              exact hc (congrArg Prod.fst he)
            rw [if_neg hkey] at hcm
            exact hs c m hcm
      | mark now' c' =>
        have hmm : (mark_chat_as_processed now' c' s').msgs = s'.msgs := by
          unfold mark_chat_as_processed
          cases lookupA c' s'.chats <;> rfl
        rw [show applyStoreOp s' (StoreOp.mark now' c') =
            mark_chat_as_processed now' c' s' from rfl] at hcm ⊢
        rw [hmm] at hcm
        have h2 := hs c m hcm
        unfold mark_chat_as_processed
        cases hlc : lookupA c' s'.chats with
        | none => exact h2
        | some cd =>
          dsimp only
          rw [lookupA_setA]
          by_cases hc : c' = c
          · simp [hc]
          · simpa [hc] using h2
    have hrun : ∀ (ops : List StoreOp) (s' : Store),
        (∀ c m, (lookupA (c, m) s'.msgs).isSome → (lookupA c s'.chats).isSome) →
        ∀ c m, (lookupA (c, m) (runOps s' ops).msgs).isSome →
          (lookupA c (runOps s' ops).chats).isSome := by
      intro ops
      induction ops with
      | nil => intro s' hs; exact hs
      | cons op rest ih =>
        intro s' hs
        exact ih (applyStoreOp s' op) (hstep op s' hs)
    intro ops c m
    exact hrun ops {} (fun c' m' h => by simp [lookupA] at h) c m

/-- C2 witness: after one successful save from the empty store, the message
row is present and the conversation document exists. -/
theorem C2_atomic_batch_witness :
    (lookupA "c1" (runOps {} [StoreOp.save false false 1 evC1]).chats).isSome :=
  (C2_atomic_batch false false 1 evC1 {}).2 [StoreOp.save false false 1 evC1]
    "c1" "m1" (by decide)

/-- C9: every successful message write sets the conversation's
needs-analysis flag (`needs_summary`) to true, and among the store's write
operations only `mark_chat_as_processed` on that very conversation can turn
the flag to false. -/
theorem C9_flag_invariant :
    (∀ (fok : Bool) (now : Nat) (ev : UnipileMessageEvent) (s : Store),
      chatFlag (save_message_event false fok now ev s).2 ev.chat_id =
        some (some true)) ∧
    (∀ (op : StoreOp) (s : Store) (c : String),
      chatFlag s c ≠ some (some false) →
      chatFlag (applyStoreOp s op) c = some (some false) →
      ∃ now, op = .mark now c) := by
  constructor
  · intro fok now ev s
    rw [chatFlag, save_success_state]
    dsimp only
    rw [lookupA_setA]
    simp [applyChatMerge]
  · intro op s c hpre hpost
    cases op with
    | save exc' fok' now' ev' =>
      exfalso
      cases exc' with
      | true => exact hpre hpost
      | false =>
        rw [show applyStoreOp s (StoreOp.save false fok' now' ev') =
            (save_message_event false fok' now' ev' s).2 from rfl] at hpost
        rw [chatFlag, save_success_state] at hpost
        dsimp only at hpost
        rw [lookupA_setA] at hpost
        by_cases hc : ev'.chat_id = c
        · rw [if_pos hc] at hpost
          simp [applyChatMerge] at hpost
        · rw [if_neg hc] at hpost
          exact hpre hpost
    | mark now' c' =>
      by_cases hc : c = c'
      · exact ⟨now', by rw [hc]⟩
      · exfalso
        rw [show applyStoreOp s (StoreOp.mark now' c') =
            mark_chat_as_processed now' c' s from rfl] at hpost
        unfold mark_chat_as_processed at hpost
        cases hlc : lookupA c' s.chats with
        | none =>
          rw [hlc] at hpost
          exact hpre hpost
        | some cd =>
          rw [hlc] at hpost
          rw [chatFlag] at hpost
          dsimp only at hpost
          rw [lookupA_setA] at hpost
          rw [if_neg (fun he => hc he.symm)] at hpost
          exact hpre hpost

/-- C9 witness: on a store whose conversation flag is not false, the only
operation that turns it false is the mark operation on that chat. -/
theorem C9_flag_invariant_witness :
    ∃ now, StoreOp.mark 5 "c1" = StoreOp.mark now "c1" :=
  C9_flag_invariant.2 (StoreOp.mark 5 "c1") storeFlag "c1" (by decide) (by decide)

/-- C4: for a chat whose conversation document exists, the unanalyzed-text
read returns exactly the formatted "[date] sender: text" lines of the
messages with `stored_at` strictly greater than the stored watermark (all
messages when the watermark is null), in non-decreasing `stored_at` order,
and the empty string when no message qualifies. -/
theorem C4_unanalyzed_read (s : Store) (chat : String) (cd : ChatDoc)
    (hcd : lookupA chat s.chats = some cd) :
    ∃ l : List MsgDoc,
      get_new_messages_only false chat s = String.intercalate "\n" (l.map fmtNewLine) ∧
      l.Perm (match cd.last_processed_at with
        | some w => (msgsOf s chat).filter (fun m : MsgDoc => decide (w < m.stored_at))
        | none => msgsOf s chat) ∧
      l.Pairwise storedLe ∧
      ((match cd.last_processed_at with
        | some w => (msgsOf s chat).filter (fun m : MsgDoc => decide (w < m.stored_at))
        | none => msgsOf s chat) = [] →
        get_new_messages_only false chat s = "") := by
  cases hw : cd.last_processed_at with
  | none =>
    refine ⟨List.insertionSort storedLe (msgsOf s chat), ?_, ?_, ?_, ?_⟩
    · simp [get_new_messages_only, hcd, hw]
    · simpa [hw] using List.perm_insertionSort storedLe (msgsOf s chat)
    · exact List.sorted_insertionSort storedLe (msgsOf s chat)
    · intro h
      simp only [hw] at h
      have h2 : List.insertionSort storedLe (msgsOf s chat) = [] := by
        rw [h]
        rfl
      simp [get_new_messages_only, hcd, hw, h2, String.intercalate]
  | some w =>
    refine ⟨(List.insertionSort storedLe (msgsOf s chat)).filter
        (fun m : MsgDoc => decide (w < m.stored_at)), ?_, ?_, ?_, ?_⟩
    · simp [get_new_messages_only, hcd, hw]
    · simpa [hw] using (List.perm_insertionSort storedLe (msgsOf s chat)).filter
        (fun m : MsgDoc => decide (w < m.stored_at))
    · exact List.Pairwise.sublist (List.filter_sublist _)
        (List.sorted_insertionSort storedLe (msgsOf s chat))
    · intro h
      simp only [hw] at h
      have hp := (List.perm_insertionSort storedLe (msgsOf s chat)).filter
        (fun m : MsgDoc => decide (w < m.stored_at))
      rw [h] at hp
      simp [get_new_messages_only, hcd, hw, hp.eq_nil, String.intercalate]

/-- C4 witness: the unanalyzed read on the concrete store returns exactly
the formatted lines of the post-watermark messages, sorted. -/
theorem C4_unanalyzed_read_witness :
    ∃ l : List MsgDoc,
      get_new_messages_only false "c4" storeC4 =
        String.intercalate "\n" (l.map fmtNewLine) ∧
      l.Perm (match chatC4.last_processed_at with
        | some w => (msgsOf storeC4 "c4").filter (fun m : MsgDoc => decide (w < m.stored_at))
        | none => msgsOf storeC4 "c4") ∧
      l.Pairwise storedLe ∧
      ((match chatC4.last_processed_at with
        | some w => (msgsOf storeC4 "c4").filter (fun m : MsgDoc => decide (w < m.stored_at))
        | none => msgsOf storeC4 "c4") = [] →
        get_new_messages_only false "c4" storeC4 = "") :=
  C4_unanalyzed_read storeC4 "c4" chatC4 rfl

/-- The per-transaction append loop of the finance section only touches the
spreadsheet, never the store. -/
theorem foldl_append_store (appendOk : Bool) :
    ∀ (txs : List Tx) (w : World),
      (txs.foldl (fun acc t => (append_row appendOk (txRow t) acc).2) w).store =
        w.store := by
  intro txs
  induction txs with
  | nil => intro w; rfl
  | cons t rest ih =>
    intro w
    rw [List.foldl_cons, ih]
    cases appendOk <;> rfl

/-- C3 (amended): the sales path clears the needs-analysis flag only after
successful spreadsheet persistence — a failed append leaves the world
unchanged, a successful one appends the row and marks the chat — but the
strategy and finance paths mark their conversation as processed
unconditionally after a non-empty batch, regardless of whether the append
succeeded. -/
theorem C3_flag_vs_persistence :
    (∀ (apok rf : String → Bool) (an : String → String → String)
      (today : String) (cutoff now : Nat) (w : World) (chat : String),
      chat ≠ VINCENT_CHAT_ID → chat ≠ MY_CHAT_ID →
      get_weekly_context (rf chat) cutoff chat w.store ≠ "" →
      apok chat = false →
      salesStep apok rf an today cutoff now w chat = w) ∧
    (∀ (apok rf : String → Bool) (an : String → String → String)
      (today : String) (cutoff now : Nat) (w : World) (chat : String),
      chat ≠ VINCENT_CHAT_ID → chat ≠ MY_CHAT_ID →
      get_weekly_context (rf chat) cutoff chat w.store ≠ "" →
      apok chat = true →
      salesStep apok rf an today cutoff now w chat =
        { store := mark_chat_as_processed now chat w.store,
          sheet := w.sheet ++ [[some today, some chat,
            some (an chat (get_weekly_context (rf chat) cutoff chat w.store))]] }) ∧
    (∀ (apok : Bool) (an : String → String) (today : String)
      (startOfToday now : Nat) (w : World),
      get_messages_from_today startOfToday VINCENT_CHAT_ID w.store ≠ "" →
      (strategyPhase apok an today startOfToday now w).store =
        mark_chat_as_processed now VINCENT_CHAT_ID w.store) ∧
    (∀ (apok rf : Bool) (ex : String → List Tx) (now : Nat) (w : World),
      get_new_messages_only rf FINANCE_GROUP_ID w.store ≠ "" →
      (financePhase apok rf ex now w).store =
        mark_chat_as_processed now FINANCE_GROUP_ID w.store) := by
  refine ⟨?_, ?_, ?_, ?_⟩
  · intro apok rf an today cutoff now w chat hv hm hne hap
    simp [salesStep, hv, hm, hne, hap, append_row]
  · intro apok rf an today cutoff now w chat hv hm hne hap
    simp [salesStep, hv, hm, hne, hap, append_row]
  · intro apok an today st now w hne
    cases apok <;> simp [strategyPhase, hne, append_row]
  · intro apok rf ex now w hne
    simp [financePhase, hne, foldl_append_store]

/-- C3 counterexample: in the finance path, with a non-empty batch, a
transaction to write, and a failing spreadsheet append, no row is persisted
yet the needs-analysis flag is still cleared — refuting the claim that the
flag is cleared only after successful persistence on every dispatch
path. -/
theorem C3_counterexample :
    (financePhase false false (fun _ => [txFin]) 9 worldFin).sheet = [] ∧
    chatFlag (financePhase false false (fun _ => [txFin]) 9 worldFin).store
      FINANCE_GROUP_ID = some (some false) := by
  exact ⟨rfl, rfl⟩

/-- C3 witness: a failed sales append leaves the world unchanged (flag kept),
while the finance path marks the group as processed even though its append
failed. -/
theorem C3_flag_vs_persistence_witness :
    salesStep (fun _ => false) (fun _ => false) (fun _ h => h)
      "2025-10-12" 0 9 worldFin FINANCE_GROUP_ID = worldFin ∧
    (financePhase false false (fun _ => [txFin]) 9 worldFin).store =
      mark_chat_as_processed 9 FINANCE_GROUP_ID worldFin.store :=
  ⟨C3_flag_vs_persistence.1 (fun _ => false) (fun _ => false) (fun _ h => h)
      "2025-10-12" 0 9 worldFin FINANCE_GROUP_ID (by decide) (by decide)
      (by decide) rfl,
   C3_flag_vs_persistence.2.2.2 false false (fun _ => [txFin]) 9 worldFin
      (by decide)⟩

/-- C6 witness: an empty extracted transaction list on a non-empty finance
batch writes no row and still advances the watermark. -/
theorem C6_finance_output_witness :
    (financePhase true false (fun _ => []) 9 worldFin).sheet = worldFin.sheet ∧
    (financePhase true false (fun _ => []) 9 worldFin).store =
      mark_chat_as_processed 9 FINANCE_GROUP_ID worldFin.store :=
  ⟨(C6_finance_output true false (fun _ => []) 9 worldFin (by decide) rfl).2.2.1,
   (C6_finance_output true false (fun _ => []) 9 worldFin (by decide) rfl).2.2.2⟩

/-- C10 (implicit): the history reads are total at their interface — on an
internal store error they return the empty string instead of raising — and
the sales dispatcher then clears the conversation's needs-analysis flag
exactly as for a genuinely empty batch. -/
theorem C10_read_error_totality :
    (∀ (cutoff : Nat) (chat : String) (s : Store),
      get_weekly_context true cutoff chat s = "") ∧
    (∀ (chat : String) (s : Store), get_new_messages_only true chat s = "") ∧
    (∀ (apok rf : String → Bool) (an : String → String → String)
      (today : String) (cutoff now : Nat) (w : World) (chat : String)
      (cd : ChatDoc),
      rf chat = true → chat ≠ VINCENT_CHAT_ID → chat ≠ MY_CHAT_ID →
      lookupA chat w.store.chats = some cd →
      chatFlag (salesStep apok rf an today cutoff now w chat).store chat =
        some (some false)) := by
  refine ⟨fun _ _ _ => rfl, fun _ _ => rfl, ?_⟩
  intro apok rf an today cutoff now w chat cd hrf hv hm hcd
  simp [salesStep, hrf, hv, hm, get_weekly_context, mark_chat_as_processed,
    hcd, chatFlag, lookupA_setA]

/-- C10 witness: with a failing read the outputs are empty and the queued
conversation's flag ends up cleared. -/
theorem C10_read_error_totality_witness :
    get_weekly_context true 0 "c1" storeFlag = "" ∧
    get_new_messages_only true "c1" storeFlag = "" ∧
    chatFlag (salesStep (fun _ => true) (fun _ => true) (fun _ h => h)
      "2025-10-12" 0 9 { store := storeFlag } "c1").store "c1" =
        some (some false) :=
  ⟨C10_read_error_totality.1 0 "c1" storeFlag,
   C10_read_error_totality.2.1 "c1" storeFlag,
   C10_read_error_totality.2.2 (fun _ => true) (fun _ => true) (fun _ h => h)
     "2025-10-12" 0 9 { store := storeFlag } "c1"
     { needs_summary := some true } rfl (by decide) (by decide) rfl⟩
